import Mathlib

set_option maxRecDepth 20000

/-!
Shallow embedding of the usdtapi server (Node.js + Express) for verification.

Sources embedded:
- db.js: SQLite-backed settlement store (processed_transactions, settings);
- index.js: config hydration, the /api/rate, /api/min-deposit,
  /api/min-withdrawal handlers, the /api/deposit/txid handler and the
  /api/withdraw handler;
- binanceClient.js: credential gate and the three signed operations
  (deposit history, account balance, withdrawal submission).

JavaScript numbers are IEEE doubles; they are embedded as an inductive
type with NaN and the two infinities, finite values carried exactly as
rationals (float rounding is not modelled; every product appearing in the
claims is exact in binary64 as well). Network transport, request signing
and timestamps are abstracted into oracle functions passed as parameters:
a handler that never consults the oracle has performed no network I/O.
-/

/-- Model of a JavaScript number: NaN, the infinities, or a finite value
carried exactly as a rational. -/
inductive JSNum where
  | nan : JSNum
  | inf : JSNum
  | ninf : JSNum
  | fin (q : ℚ) : JSNum
deriving DecidableEq, Repr

namespace JSNum

/-- Number.isNaN. -/
def isNaN : JSNum → Bool
  | nan => true
  | _ => false

/-- Number.isFinite. -/
def isFinite : JSNum → Bool
  | fin _ => true
  | _ => false

end JSNum

/-- The JavaScript strict comparison a < b on numbers (false on NaN). -/
def jsLt : JSNum → JSNum → Bool
  | .nan, _ => false
  | _, .nan => false
  | .ninf, .ninf => false
  | .ninf, _ => true
  | _, .ninf => false
  | .inf, _ => false
  | .fin _, .inf => true
  | .fin a, .fin b => decide (a < b)

/-- The JavaScript comparison a <= b on numbers (false on NaN). -/
def jsLe (a b : JSNum) : Bool :=
  jsLt a b || (!a.isNaN && a == b)

/-- The JavaScript strict equality a === b on numbers (NaN equal to nothing). -/
def jsEq (a b : JSNum) : Bool :=
  !a.isNaN && !b.isNaN && a == b

/-- JavaScript multiplication on numbers; finite times finite is exact here
(the rational product). -/
def jsMul : JSNum → JSNum → JSNum
  | .nan, _ => .nan
  | _, .nan => .nan
  | .inf, .inf => .inf
  | .inf, .ninf => .ninf
  | .ninf, .inf => .ninf
  | .ninf, .ninf => .inf
  | .inf, .fin q => if 0 < q then .inf else if q < 0 then .ninf else .nan
  | .fin q, .inf => if 0 < q then .inf else if q < 0 then .ninf else .nan
  | .ninf, .fin q => if 0 < q then .ninf else if q < 0 then .inf else .nan
  | .fin q, .ninf => if 0 < q then .ninf else if q < 0 then .inf else .nan
  | .fin a, .fin b => .fin (a * b)

/-! ## JavaScript string methods

Embedded over character lists so that concrete instances reduce in the
kernel. -/

/-- Starts-with test on character lists. -/
def startsWithList : List Char → List Char → Bool
  | _, [] => true
  | [], _ :: _ => false
  | c :: cs, p :: ps => c == p && startsWithList cs ps

/-- Contiguous-occurrence test on character lists. -/
def hasSubList (pat : List Char) : List Char → Bool
  | [] => pat.isEmpty
  | c :: cs => startsWithList (c :: cs) pat || hasSubList pat cs

/-- String.prototype.trim: drop whitespace from both ends. -/
def jsTrim (s : String) : String :=
  String.mk (((s.toList.dropWhile Char.isWhitespace).reverse.dropWhile
    Char.isWhitespace).reverse)

/-- String.prototype.startsWith. -/
def jsStartsWith (s p : String) : Bool :=
  startsWithList s.toList p.toList

/-- String.prototype.includes. -/
def containsSub (s pat : String) : Bool :=
  hasSubList pat.toList s.toList

/-- String.prototype.toLowerCase on ASCII content. -/
def lowerStr (s : String) : String :=
  String.mk (s.toList.map Char.toLower)

/-! ## Settlement store (db.js)

The processed_transactions table has a UNIQUE constraint on txId; the
store-assigned surrogate id and createdAt columns are never read by the
handlers and are omitted from the row model. -/

/-- One row of processed_transactions, as written by the deposit handler. -/
structure SettledRow where
  txId : String
  asset : String
  amount : JSNum
  rewardKes : JSNum
  confirmedAt : String
deriving DecidableEq, Repr

/-- db.js getByTxId: SELECT the row whose txId equals the key, or null. -/
def getByTxId (rows : List SettledRow) (t : String) : Option SettledRow :=
  rows.find? (fun r => r.txId == t)

/-- db.js insert: INSERT a row; the UNIQUE index on txId makes the insert
throw when an equal txId is already present. -/
def insertRow (rows : List SettledRow) (r : SettledRow) :
    Except Unit (List SettledRow) :=
  if rows.any (fun x => x.txId == r.txId) then .error () else .ok (rows ++ [r])

/-! ## Configuration hydration and update handlers (index.js lines 13 to 134)

getSetting returns the stored string or null; Number of it is modelled as
an optional JSNum. The env fallback is likewise Number of a string. -/

/-- Hydration of KES_PER_USDT: a stored value that parses to a number
greater than zero wins; otherwise the env value if it parses greater than
zero; otherwise 150. -/
def hydrateRate (fromDb : Option JSNum) (fromEnv : Option JSNum) : JSNum :=
  match fromDb with
  | some n =>
    if !n.isNaN && jsLt (.fin 0) n then n
    else hydrateRateEnv fromEnv
  | none => hydrateRateEnv fromEnv
where
  hydrateRateEnv (fromEnv : Option JSNum) : JSNum :=
    let e := fromEnv.getD (.fin 150)
    if !e.isNaN && jsLt (.fin 0) e then e else .fin 150

/-- Hydration of MIN_DEPOSIT_AMOUNT: stored value if it parses to a number
at least zero; otherwise the env value under the same test; otherwise 0. -/
def hydrateMinDeposit (fromDb : Option JSNum) (fromEnv : Option JSNum) : JSNum :=
  match fromDb with
  | some n =>
    if !n.isNaN && jsLe (.fin 0) n then n
    else hydrateMinDepositEnv fromEnv
  | none => hydrateMinDepositEnv fromEnv
where
  hydrateMinDepositEnv (fromEnv : Option JSNum) : JSNum :=
    let e := fromEnv.getD (.fin 0)
    if !e.isNaN && jsLe (.fin 0) e then e else .fin 0

/-- Hydration of MIN_WITHDRAWAL_AMOUNT: stored value if it parses greater
than zero; otherwise the env value under the same test; otherwise 10. -/
def hydrateMinWithdrawal (fromDb : Option JSNum) (fromEnv : Option JSNum) : JSNum :=
  match fromDb with
  | some n =>
    if !n.isNaN && jsLt (.fin 0) n then n
    else hydrateMinWithdrawalEnv fromEnv
  | none => hydrateMinWithdrawalEnv fromEnv
where
  hydrateMinWithdrawalEnv (fromEnv : Option JSNum) : JSNum :=
    let e := fromEnv.getD (.fin 10)
    if !e.isNaN && jsLt (.fin 0) e then e else .fin 10

/-- POST /api/rate validation: the body value must be truthy, parse to a
number that is not NaN, and not be at most zero. -/
def validRate (truthy : Bool) (n : JSNum) : Bool :=
  truthy && !n.isNaN && !jsLe n (.fin 0)

/-- POST /api/min-deposit validation: the body value must be non-null,
parse to a number that is not NaN, and not be below zero. -/
def validMinDeposit (notNull : Bool) (n : JSNum) : Bool :=
  notNull && !n.isNaN && !jsLt n (.fin 0)

/-- POST /api/min-withdrawal validation: the body value must be non-null,
parse to a number that is not NaN, and not be at most zero. -/
def validMinWithdrawal (notNull : Bool) (n : JSNum) : Bool :=
  notNull && !n.isNaN && !jsLe n (.fin 0)

/-- Outcome of a configuration update request. -/
inductive CfgOutcome where
  | badRequest : CfgOutcome
  | ok (v : JSNum) : CfgOutcome
  | storeFailure : CfgOutcome
deriving DecidableEq, Repr

/-- POST /api/rate: on valid input the in-memory variable KES_PER_USDT is
assigned first, then setSetting writes the store; writeOk models whether
that durable write succeeds. Returns the outcome and the in-memory value
after the handler. -/
def postRate (mem : JSNum) (truthy : Bool) (n : JSNum) (writeOk : Bool) :
    CfgOutcome × JSNum :=
  if !validRate truthy n then (.badRequest, mem)
  else if writeOk then (.ok n, n)
  else (.storeFailure, n)

/-- POST /api/min-deposit, same shape as postRate. -/
def postMinDeposit (mem : JSNum) (notNull : Bool) (n : JSNum) (writeOk : Bool) :
    CfgOutcome × JSNum :=
  if !validMinDeposit notNull n then (.badRequest, mem)
  else if writeOk then (.ok n, n)
  else (.storeFailure, n)

/-- POST /api/min-withdrawal, same shape as postRate. -/
def postMinWithdrawal (mem : JSNum) (notNull : Bool) (n : JSNum) (writeOk : Bool) :
    CfgOutcome × JSNum :=
  if !validMinWithdrawal notNull n then (.badRequest, mem)
  else if writeOk then (.ok n, n)
  else (.storeFailure, n)

/-- The three in-memory tunables of index.js. -/
structure CfgState where
  rate : JSNum
  minDeposit : JSNum
  minWithdrawal : JSNum
deriving DecidableEq, Repr

/-- One configuration request: a GET (no state change) or a POST carrying
the truthiness or null-ness of the body value and its numeric parse. -/
inductive CfgOp where
  | getRate | getMinDeposit | getMinWithdrawal
  | setRate (truthy : Bool) (n : JSNum)
  | setMinDeposit (notNull : Bool) (n : JSNum)
  | setMinWithdrawal (notNull : Bool) (n : JSNum)

/-- State transition of the in-memory tunables under one request (durable
write assumed to succeed; the stored value mirrors the memory). -/
def cfgStep (s : CfgState) : CfgOp → CfgState
  | .getRate | .getMinDeposit | .getMinWithdrawal => s
  | .setRate t n => if validRate t n then { s with rate := n } else s
  | .setMinDeposit t n => if validMinDeposit t n then { s with minDeposit := n } else s
  | .setMinWithdrawal t n => if validMinWithdrawal t n then { s with minWithdrawal := n } else s

/-! ## Signed request client (binanceClient.js)

Request construction (query signing, timestamp, HTTP transport) is
abstracted into a send oracle passed as a parameter; the credential gate
runs before the oracle is consulted, so a result that holds for every
oracle was produced without network I/O. -/

/-- A thrown error as the handlers inspect it: err.response.status,
presence of err.response.data, the msg or message field of that data, and
err.message. -/
structure UpstreamFailure where
  status : Option Nat
  dataPresent : Bool
  binMsg : Option String
  errMsg : Option String
deriving DecidableEq, Repr

/-- The error thrown when BINANCE_API_KEY or BINANCE_API_SECRET is unset:
a plain Error with no HTTP response attached. -/
def notConfiguredErr : UpstreamFailure :=
  { status := none, dataPresent := false, binMsg := none,
    errMsg := some "Binance API credentials are not configured" }

/-- The API key and secret from the environment. -/
structure Creds where
  key : Option String
  secret : Option String
deriving DecidableEq, Repr

/-- binanceGet: throw the not-configured error when either credential is
absent; otherwise sign and issue the request (abstracted into send). -/
def binanceGet {ρ α : Type} (c : Creds) (send : ρ → Except UpstreamFailure α)
    (req : ρ) : Except UpstreamFailure α :=
  if c.key.isNone || c.secret.isNone then .error notConfiguredErr
  else send req

/-- binancePost: same credential gate as binanceGet, then a POST. -/
def binancePost {ρ α : Type} (c : Creds) (send : ρ → Except UpstreamFailure α)
    (req : ρ) : Except UpstreamFailure α :=
  if c.key.isNone || c.secret.isNone then .error notConfiguredErr
  else send req

/-- One record of the upstream deposit-history array as the handler reads
it: the entry itself may be null (present), txId may fail the typeof
string test (none), status is read through Number, the raw amount field
is read through truthiness then Number, and insertTime is kept as its ISO
rendering when truthy. -/
structure DepositEntry where
  present : Bool
  txId : Option String
  status : JSNum
  amountTruthy : Bool
  amountNum : JSNum
  insertTimeIso : Option String
deriving DecidableEq, Repr

/-- Parameters of the deposit-history request (coin, limit, optional time
range). -/
structure DepositHistoryReq where
  coin : String
  limit : Nat
  startTime : Option Nat
  endTime : Option Nat
deriving DecidableEq, Repr

/-- The JSON body of a deposit-history response: an array of records, or
something that fails the Array.isArray test. -/
inductive DepositHistoryResp where
  | arr (deposits : List DepositEntry) : DepositHistoryResp
  | nonArray : DepositHistoryResp

/-- getDepositHistory: a signed GET, then the Array.isArray check; a
non-array body is thrown as a plain error. -/
def getDepositHistory (c : Creds)
    (send : DepositHistoryReq → Except UpstreamFailure DepositHistoryResp)
    (req : DepositHistoryReq) : Except UpstreamFailure (List DepositEntry) :=
  match binanceGet c send req with
  | .error e => .error e
  | .ok (.arr ds) => .ok ds
  | .ok .nonArray =>
    .error { status := none, dataPresent := false, binMsg := none,
             errMsg := some "Unexpected Binance deposit history response format" }

/-- One entry of account.balances: the asset code and the free field read
through truthiness then Number. -/
structure AccountBalance where
  asset : String
  freeTruthy : Bool
  freeNum : JSNum
deriving DecidableEq, Repr

/-- The JSON body of the account response: a balances array, or a body
failing the shape check. -/
inductive AccountResp where
  | acct (balances : List AccountBalance) : AccountResp
  | malformed : AccountResp

/-- getUSDTBalance: a signed GET of the account, the shape check, then the
free amount of the first USDT entry (0 when the entry is missing or its
free field is falsy). -/
def getUSDTBalance (c : Creds)
    (send : Unit → Except UpstreamFailure AccountResp) :
    Except UpstreamFailure JSNum :=
  match binanceGet c send () with
  | .error e => .error e
  | .ok .malformed =>
    .error { status := none, dataPresent := false, binMsg := none,
             errMsg := some "Unexpected Binance account response format" }
  | .ok (.acct bs) =>
    match bs.find? (fun b => b.asset == "USDT") with
    | none => .ok (.fin 0)
    | some b => .ok (if b.freeTruthy then b.freeNum else .fin 0)

/-- The fixed leading tag of an internal-transfer claim identifier. -/
def offChainTag : String := "Off-chain transfer "

/-- Character class of the first address family: ASCII letters and the
digits 1 to 9. -/
def isTrxChar (c : Char) : Bool :=
  (decide ('A' ≤ c) && decide (c ≤ 'Z')) ||
  (decide ('a' ≤ c) && decide (c ≤ 'z')) ||
  (decide ('1' ≤ c) && decide (c ≤ '9'))

/-- The first address family: a capital T followed by 33 characters of the
allowed class (34 characters in total). -/
def isTrxAddress (s : String) : Bool :=
  match s.toList with
  | 'T' :: rest => rest.length == 33 && rest.all isTrxChar
  | _ => false

/-- Character class of the base-58-style alphabet: digits 1 to 9 and
letters excluding 0, I, O and l. -/
def isBase58Char (c : Char) : Bool :=
  (decide ('1' ≤ c) && decide (c ≤ '9')) ||
  (decide ('A' ≤ c) && decide (c ≤ 'H')) ||
  (decide ('J' ≤ c) && decide (c ≤ 'N')) ||
  (decide ('P' ≤ c) && decide (c ≤ 'Z')) ||
  (decide ('a' ≤ c) && decide (c ≤ 'k')) ||
  (decide ('m' ≤ c) && decide (c ≤ 'z'))

/-- The second address family: 32 to 44 characters of the base-58-style
alphabet. -/
def isSolAddress (s : String) : Bool :=
  let cs := s.toList
  decide (32 ≤ cs.length) && decide (cs.length ≤ 44) && cs.all isBase58Char

/-- Network auto-detection as written in both the withdraw handler and
withdrawUSDT: the first family is tested first, then the second; neither
means detection fails. -/
def detectNetwork (s : String) : Option String :=
  if isTrxAddress s then some "TRX"
  else if isSolAddress s then some "SOL"
  else none

/-- The structured request sent by withdrawUSDT. -/
structure WithdrawApplyReq where
  coin : String
  network : String
  address : String
  amount : JSNum
deriving DecidableEq, Repr

/-- The provider response to a withdrawal submission. -/
structure WithdrawResult where
  id : String
deriving DecidableEq, Repr

/-- withdrawUSDT: auto-detect the network when none is given (throwing a
plain error when detection fails), then a signed POST of the withdrawal. -/
def withdrawUSDT (c : Creds)
    (send : WithdrawApplyReq → Except UpstreamFailure WithdrawResult)
    (address : String) (amount : JSNum) (network : Option String) :
    Except UpstreamFailure WithdrawResult :=
  let detected := match network with
    | some n => some n
    | none => detectNetwork address
  match detected with
  | none =>
    .error { status := none, dataPresent := false, binMsg := none,
             errMsg := some "Unable to detect network from address format. Please specify network." }
  | some net =>
    binancePost c send { coin := "USDT", network := net, address := address, amount := amount }

/-! ## The deposit claim handler (index.js lines 142 to 256)

The handler is a function of two store snapshots: rows is the table as
read at the duplicate lookup, rowsAtInsert the table as seen by the
insert (they differ exactly when a concurrent submission commits between
the two). Instead of returning a whole table, the handler returns the row
it appends (none when nothing is written). -/

/-- The JSON responses of POST /api/deposit/txid. -/
inductive DepositResponse where
  | badRequest (msg : String) : DepositResponse
  | alreadyUsed (confirmedAmount rewardKes : JSNum) (confirmedAt : String) : DepositResponse
  | notFound : DepositResponse
  | amountTooLow (minDepositAmount confirmedAmount : JSNum) : DepositResponse
  | complete (confirmedAmount : JSNum) (confirmedAt : String) (rewardKes : JSNum) : DepositResponse
  | regionRestricted (binanceMessage : Option String) : DepositResponse
  | verificationError (message : String) : DepositResponse
deriving DecidableEq, Repr

/-- Claim identifier canonicalization: the trimmed string itself when it
already starts with the off-chain tag, otherwise the tag followed by the
trimmed string. -/
def normalizeTxId (txIdTrimmed : String) : String :=
  if jsStartsWith txIdTrimmed offChainTag then txIdTrimmed
  else offChainTag ++ txIdTrimmed

/-- The find predicate over the upstream deposit array: a non-null entry
whose txId is a string equal (raw or trimmed) to either candidate form,
with status 1. -/
def matchesEntry (normalized trimmed : String) (d : DepositEntry) : Bool :=
  d.present &&
    (match d.txId with
      | some t =>
        t == normalized || jsTrim t == normalized ||
        t == trimmed || jsTrim t == trimmed
      | none => false) &&
    jsEq d.status (.fin 1)

/-- The catch block of the deposit handler applied to a thrown error:
status 451 gives the region-restricted response, anything else the
verification-error response with the upstream message when a response
body carried one. -/
def depositCatch (e : UpstreamFailure) : DepositResponse :=
  if e.status == some 451 then
    .regionRestricted (if e.dataPresent then e.binMsg else none)
  else
    .verificationError
      ((if e.dataPresent then e.binMsg else none).getD
        "Failed to verify transaction with Binance")

/-- POST /api/deposit/txid. txId is none when the body field is missing or
not a string; nowIso stands for the ISO rendering of Date.now used when
the matched record has no insertTime. The second component is the row
appended to processed_transactions, none when nothing is written. -/
def depositTxid (rows rowsAtInsert : List SettledRow) (rate minDep : JSNum)
    (nowIso : String) (c : Creds)
    (send : DepositHistoryReq → Except UpstreamFailure DepositHistoryResp)
    (txId : Option String) : DepositResponse × Option SettledRow :=
  match txId with
  | none => (.badRequest "txId is required", none)
  | some raw =>
    if raw == "" then (.badRequest "txId is required", none)
    else
      let txIdTrimmed := jsTrim raw
      if txIdTrimmed == "" then (.badRequest "txId is required", none)
      else
        let normalizedTxId := normalizeTxId txIdTrimmed
        match (getByTxId rows normalizedTxId).orElse
            (fun _ => getByTxId rows txIdTrimmed) with
        | some existing =>
          (.alreadyUsed existing.amount existing.rewardKes existing.confirmedAt, none)
        | none =>
          match getDepositHistory c send
              { coin := "USDT", limit := 1000, startTime := none, endTime := none } with
          | .error e => (depositCatch e, none)
          | .ok deposits =>
            match deposits.find? (matchesEntry normalizedTxId txIdTrimmed) with
            | none => (.notFound, none)
            | some m =>
              let confirmedAmount := if m.amountTruthy then m.amountNum else .fin 0
              if jsLt (.fin 0) minDep && jsLt confirmedAmount minDep then
                (.amountTooLow minDep confirmedAmount, none)
              else
                let rewardKes := jsMul confirmedAmount rate
                let confirmedAt := m.insertTimeIso.getD nowIso
                if rowsAtInsert.any (fun r => r.txId == normalizedTxId) then
                  (depositCatch { status := none, dataPresent := false,
                                  binMsg := none,
                                  errMsg := some "UNIQUE constraint failed" }, none)
                else
                  (.complete confirmedAmount confirmedAt rewardKes,
                   some { txId := normalizedTxId, asset := "USDT",
                          amount := confirmedAmount, rewardKes := rewardKes,
                          confirmedAt := confirmedAt })

/-! ## The withdraw handler (index.js lines 267 to 404) -/

/-- The JSON responses of POST /api/withdraw. -/
inductive WithdrawResponse where
  | badRequest (msg : String) : WithdrawResponse
  | insufficientNoBalance : WithdrawResponse
  | belowMinimum (requestedAmount minWithdrawalAmount : JSNum) : WithdrawResponse
  | insufficientFunds (requestedAmount availableAmount : JSNum) : WithdrawResponse
  | complete (withdrawalId : String) (amount : JSNum) (address network : String) : WithdrawResponse
  | insufficientFundsUpstream (message : String) : WithdrawResponse
  | withdrawalError (message : String) : WithdrawResponse
deriving DecidableEq, Repr

/-- The catch block of the withdraw handler: with a response body, an
error message containing a funds-related word is normalized to the
insufficient-funds response, anything else to a withdrawal error; without
a body, a generic withdrawal error. (The msg and message fields of the
body are folded into binMsg.) -/
def withdrawCatch (e : UpstreamFailure) : WithdrawResponse :=
  if e.dataPresent then
    let errorMsg := lowerStr ((e.binMsg.orElse (fun _ => e.errMsg)).getD "")
    if containsSub errorMsg "insufficient" || containsSub errorMsg "balance" ||
        containsSub errorMsg "fund" then
      .insufficientFundsUpstream (e.binMsg.getD "Insufficient funds")
    else
      .withdrawalError (e.binMsg.getD "Withdrawal failed")
  else
    .withdrawalError "Failed to process withdrawal"

/-- POST /api/withdraw. address is none when missing or not a string;
amountRaw is none when the body field is null or undefined, otherwise the
Number parse of it; network is none when absent or empty. The balance
query and the submission run through the signed client with the given
oracles. -/
def withdrawHandler (minW : JSNum) (c : Creds)
    (sendAcct : Unit → Except UpstreamFailure AccountResp)
    (sendWd : WithdrawApplyReq → Except UpstreamFailure WithdrawResult)
    (address : Option String) (amountRaw : Option JSNum)
    (network : Option String) : WithdrawResponse :=
  match address with
  | none => .badRequest "address is required"
  | some a =>
    if a == "" then .badRequest "address is required"
    else
      let addressTrimmed := jsTrim a
      if addressTrimmed == "" then .badRequest "address is required"
      else
        match (match network with
          | some n => some n
          | none => detectNetwork addressTrimmed) with
        | none =>
          .badRequest "Invalid address format. Supported networks: TRC20 (starts with T, 34 chars) or Solana (32-44 base58 chars)"
        | some detectedNet =>
          if network.any (fun n => n != "TRX" && n != "SOL") then
            .badRequest "network must be TRX (TRC20) or SOL (Solana)"
          else if amountRaw.any (fun n => n.isNaN || jsLe n (.fin 0)) then
            .badRequest "amount must be a positive number (in USDT)"
          else
            match getUSDTBalance c sendAcct with
            | .error e => withdrawCatch e
            | .ok availableAmount =>
              if jsLe availableAmount (.fin 0) then .insufficientNoBalance
              else
                let finalAmount := amountRaw.getD availableAmount
                if jsLt finalAmount minW then .belowMinimum finalAmount minW
                else if jsLt availableAmount finalAmount then
                  .insufficientFunds finalAmount availableAmount
                else
                  match withdrawUSDT c sendWd addressTrimmed finalAmount (some detectedNet) with
                  | .ok result =>
                    .complete result.id finalAmount addressTrimmed detectedNet
                  | .error e => withdrawCatch e

/-! ## Concrete fixtures used by counterexamples and witnesses -/

/-- Credentials with both values present. -/
def credsFull : Creds := { key := some "key", secret := some "secret" }

/-- Credentials with the API key absent. -/
def credsNoKey : Creds := { key := none, secret := some "secret" }

/-- A confirmed upstream deposit of 9 USDT under the canonical identifier. -/
def exampleEntry : DepositEntry :=
  { present := true, txId := some "Off-chain transfer 344178838453",
    status := .fin 1, amountTruthy := true, amountNum := .fin 9,
    insertTimeIso := some "2026-01-22T08:11:24.000Z" }

/-- The settled row that the example deposit produces at rate 150. -/
def exampleRow : SettledRow :=
  { txId := "Off-chain transfer 344178838453", asset := "USDT",
    amount := .fin 9, rewardKes := .fin 1350,
    confirmedAt := "2026-01-22T08:11:24.000Z" }

/-- A confirmed upstream deposit of exactly 10 USDT. -/
def entryTen : DepositEntry :=
  { present := true, txId := some "Off-chain transfer 555", status := .fin 1,
    amountTruthy := true, amountNum := .fin 10,
    insertTimeIso := some "2026-01-22T09:00:00.000Z" }

/-- A confirmed upstream deposit whose amount field is falsy (missing or
empty or zero): the handler reads it as 0. -/
def zeroAmountEntry : DepositEntry :=
  { present := true, txId := some "Off-chain transfer 777", status := .fin 1,
    amountTruthy := false, amountNum := .fin 0, insertTimeIso := none }

/-- A deposit-history oracle answering every request with a fixed array. -/
def sendArr (ds : List DepositEntry) :
    DepositHistoryReq → Except UpstreamFailure DepositHistoryResp :=
  fun _ => .ok (.arr ds)

/-- An account oracle holding the given free USDT amount. -/
def sendAcctWith (free : JSNum) : Unit → Except UpstreamFailure AccountResp :=
  fun _ => .ok (.acct [{ asset := "USDT", freeTruthy := true, freeNum := free }])

/-- A withdrawal-submission oracle answering with a fixed id. -/
def sendWdOk : WithdrawApplyReq → Except UpstreamFailure WithdrawResult :=
  fun _ => .ok { id := "wd-1" }

/-- Thirty-four capital letters T: shaped like both address families. -/
def bothFamiliesAddr : String := "TTTTTTTTTTTTTTTTTTTTTTTTTTTTTTTTTT"

/-- A 34-character address of the first family. -/
def trxAddr : String := "TQrY8tryqsYVCYS3MFbtffiPp2ccyn4STm"

/-- A 44-character base-58 address of the second family. -/
def solAddr : String := "11111111111111111111111111111111111111111111"

/-- The deposit-history request the deposit handler issues. -/
def histReq : DepositHistoryReq :=
  { coin := "USDT", limit := 1000, startTime := none, endTime := none }

/-- A concrete withdrawal-submission request. -/
def applyReq : WithdrawApplyReq :=
  { coin := "USDT", network := "TRX", address := "a", amount := .fin 1 }

/-! ## Helper lemmas -/

/-- A JavaScript number is never strictly below itself. -/
theorem jsLt_irrefl (a : JSNum) : jsLt a a = false := by
  rcases a with _ | _ | _ | q <;> simp [jsLt]

/-- A validated rate is strictly positive in the extended order. -/
theorem validRate_pos {t : Bool} {n : JSNum} (h : validRate t n = true) :
    jsLt (.fin 0) n = true := by
  rcases n with _ | _ | _ | q
  · simp [validRate, JSNum.isNaN] at h
  · simp [jsLt]
  · simp [validRate, jsLe, jsLt, JSNum.isNaN] at h
  · simp [validRate, jsLe, jsLt, JSNum.isNaN] at h
    simp [jsLt]
    obtain ⟨-, hq, hne⟩ := h
    exact lt_of_le_of_ne hq (fun e => hne e.symm)

/-- A validated minimum deposit is at least zero in the extended order. -/
theorem validMinDeposit_nonneg {t : Bool} {n : JSNum} (h : validMinDeposit t n = true) :
    jsLe (.fin 0) n = true := by
  rcases n with _ | _ | _ | q
  · simp [validMinDeposit, JSNum.isNaN] at h
  · simp [jsLe, jsLt]
  · simp [validMinDeposit, jsLt] at h
  · simp [validMinDeposit, jsLt] at h
    simp [jsLe, jsLt, JSNum.isNaN]
    rcases eq_or_lt_of_le h.2 with h3 | h3
    · exact Or.inr h3
    · exact Or.inl h3

/-- A validated minimum withdrawal is strictly positive in the extended order. -/
theorem validMinWithdrawal_pos {t : Bool} {n : JSNum} (h : validMinWithdrawal t n = true) :
    jsLt (.fin 0) n = true := by
  rcases n with _ | _ | _ | q
  · simp [validMinWithdrawal, JSNum.isNaN] at h
  · simp [jsLt]
  · simp [validMinWithdrawal, jsLe, jsLt, JSNum.isNaN] at h
  · simp [validMinWithdrawal, jsLe, jsLt, JSNum.isNaN] at h
    simp [jsLt]
    obtain ⟨-, hq, hne⟩ := h
    exact lt_of_le_of_ne hq (fun e => hne e.symm)

/-- A list followed by anything starts with that list. -/
theorem startsWithList_append (l x : List Char) :
    startsWithList (l ++ x) l = true := by
  induction l with
  | nil => cases x <;> simp [startsWithList]
  | cons c cs ih => simp [startsWithList, ih]

/-! ## Claim C5: ordering of durable write and cache update -/

/-- C5 counterexample: with in-memory rate 150, a valid update to 200 whose
durable store write fails leaves the in-memory value holding the new,
unpersisted 200 — the cache is assigned before the durable write, so the
claimed ordering (durable write completes first) is false. -/
theorem C5_cex :
    postRate (.fin 150) true (.fin 200) false = (.storeFailure, .fin 200) ∧
    (JSNum.fin 200 : JSNum) ≠ .fin 150 := by
  constructor
  · rfl
  · decide

/-- C5 amended: for every configuration update with a valid value, the
in-memory cached value is assigned before the durable store write is
attempted; in particular, when the durable write fails, the in-memory
value is left holding the new, unpersisted value. -/
theorem C5_amended_thm :
    (∀ (mem : JSNum) (t : Bool) (n : JSNum), validRate t n = true →
      postRate mem t n false = (.storeFailure, n)) ∧
    (∀ (mem : JSNum) (t : Bool) (n : JSNum), validMinDeposit t n = true →
      postMinDeposit mem t n false = (.storeFailure, n)) ∧
    (∀ (mem : JSNum) (t : Bool) (n : JSNum), validMinWithdrawal t n = true →
      postMinWithdrawal mem t n false = (.storeFailure, n)) := by
  refine ⟨fun mem t n h => ?_, fun mem t n h => ?_, fun mem t n h => ?_⟩
  · simp [postRate, h]
  · simp [postMinDeposit, h]
  · simp [postMinWithdrawal, h]

/-- C5 witness: the amended statement at rate 200 over 150, minimum
deposit 3 over 0, minimum withdrawal 20 over 10, each with a failing
durable write. -/
theorem C5_witness :
    postRate (.fin 150) true (.fin 200) false = (.storeFailure, .fin 200) ∧
    postMinDeposit (.fin 0) true (.fin 3) false = (.storeFailure, .fin 3) ∧
    postMinWithdrawal (.fin 10) true (.fin 20) false = (.storeFailure, .fin 20) :=
  ⟨C5_amended_thm.1 (.fin 150) true (.fin 200) (by decide),
   C5_amended_thm.2.1 (.fin 0) true (.fin 3) (by decide),
   C5_amended_thm.2.2 (.fin 10) true (.fin 20) (by decide)⟩

/-! ## Claim C7: network address classification -/

/-- C7 counterexample: thirty-four capital letters T match both the first
family shape (T plus 33 allowed characters) and the second family shape
(34 base-58 characters within 32 to 44), yet classification does not fail:
the first branch wins and the string classifies as TRX. -/
theorem C7_cex :
    isTrxAddress bothFamiliesAddr = true ∧
    isSolAddress bothFamiliesAddr = true ∧
    detectNetwork bothFamiliesAddr = some "TRX" := by
  refine ⟨by decide, by decide, by decide⟩

/-- C7 amended: a string of the first family shape classifies as TRX; a
base-58 string of length 32 to 44 classifies as SOL provided it does not
match the first family shape (the TRX test runs first and takes
precedence); classification fails exactly when the string matches neither
family. -/
theorem C7_amended_thm (s : String) :
    (isTrxAddress s = true → detectNetwork s = some "TRX") ∧
    (isTrxAddress s = false → isSolAddress s = true → detectNetwork s = some "SOL") ∧
    (detectNetwork s = none ↔ (isTrxAddress s = false ∧ isSolAddress s = false)) := by
  refine ⟨fun h => ?_, fun h1 h2 => ?_, ?_⟩
  · simp [detectNetwork, h]
  · simp [detectNetwork, h1, h2]
  · unfold detectNetwork
    rcases h1 : isTrxAddress s <;> rcases h2 : isSolAddress s <;> simp

/-- C7 witness: the amended statement at a 34-character first-family
address, a 44-character base-58 address, and a short string matching
neither. -/
theorem C7_witness :
    detectNetwork trxAddr = some "TRX" ∧
    detectNetwork solAddr = some "SOL" ∧
    detectNetwork "hello" = none :=
  ⟨(C7_amended_thm trxAddr).1 (by decide),
   (C7_amended_thm solAddr).2.1 (by decide) (by decide),
   ((C7_amended_thm "hello").2.2).mpr ⟨by decide, by decide⟩⟩

/-! ## Claim C9: invariant of the in-memory tunables -/

/-- The invariant that does hold of the tunables: the rate is positive and
the minimum withdrawal is positive in the extended order (so NaN is
excluded but Infinity is allowed), and the minimum deposit is at least
zero. -/
def cfgInv (s : CfgState) : Prop :=
  jsLt (.fin 0) s.rate = true ∧
  jsLe (.fin 0) s.minDeposit = true ∧
  jsLt (.fin 0) s.minWithdrawal = true

instance (s : CfgState) : Decidable (cfgInv s) := by
  unfold cfgInv; infer_instance

/-- C9 counterexample: starting from the hydrated default state (rate 150,
minimum deposit 0, minimum withdrawal 10), the update request whose body
value is the truthy string Infinity (so Number of it is Infinity, not NaN
and not at most 0) passes validation and is a successful update, yet it
leaves the in-memory exchange rate non-finite — the claimed finiteness
part of the invariant is false. -/
theorem C9_cex :
    hydrateRate none none = .fin 150 ∧
    hydrateMinDeposit none none = .fin 0 ∧
    hydrateMinWithdrawal none none = .fin 10 ∧
    validRate true .inf = true ∧
    cfgStep { rate := .fin 150, minDeposit := .fin 0, minWithdrawal := .fin 10 }
        (.setRate true .inf) =
      { rate := .inf, minDeposit := .fin 0, minWithdrawal := .fin 10 } ∧
    JSNum.isFinite .inf = false := by
  refine ⟨by decide, by decide, by decide, by decide, by decide, by decide⟩

/-- If the default is positive, the guarded assignment of the hydration
code stays positive. -/
theorem guardPos (n d : JSNum) (hd : jsLt (.fin 0) d = true) :
    jsLt (.fin 0) (if !n.isNaN && jsLt (.fin 0) n then n else d) = true := by
  cases hn : n.isNaN <;> cases h2 : jsLt (.fin 0) n <;> simp [hn, h2, hd]

/-- If the default is non-negative, the guarded assignment of the
hydration code stays non-negative. -/
theorem guardNonneg (n d : JSNum) (hd : jsLe (.fin 0) d = true) :
    jsLe (.fin 0) (if !n.isNaN && jsLe (.fin 0) n then n else d) = true := by
  cases hn : n.isNaN <;> cases h2 : jsLe (.fin 0) n <;> simp [hn, h2, hd]

/-- One step of cfgStep preserves the extended-order invariant. -/
theorem cfgStep_preserves (s : CfgState) (op : CfgOp) (h : cfgInv s) :
    cfgInv (cfgStep s op) := by
  obtain ⟨h1, h2, h3⟩ := h
  cases op with
  | getRate => exact ⟨h1, h2, h3⟩
  | getMinDeposit => exact ⟨h1, h2, h3⟩
  | getMinWithdrawal => exact ⟨h1, h2, h3⟩
  | setRate t n =>
    simp only [cfgStep]
    by_cases hv : validRate t n = true
    · rw [if_pos hv]
      exact ⟨validRate_pos hv, h2, h3⟩
    · rw [if_neg hv]
      exact ⟨h1, h2, h3⟩
  | setMinDeposit t n =>
    simp only [cfgStep]
    by_cases hv : validMinDeposit t n = true
    · rw [if_pos hv]
      exact ⟨h1, validMinDeposit_nonneg hv, h3⟩
    · rw [if_neg hv]
      exact ⟨h1, h2, h3⟩
  | setMinWithdrawal t n =>
    simp only [cfgStep]
    by_cases hv : validMinWithdrawal t n = true
    · rw [if_pos hv]
      exact ⟨h1, h2, validMinWithdrawal_pos hv⟩
    · rw [if_neg hv]
      exact ⟨h1, h2, h3⟩

/-- Hydration of the rate always lands strictly above zero. -/
theorem hydrateRate_pos (db env : Option JSNum) :
    jsLt (.fin 0) (hydrateRate db env) = true := by
  have henv : ∀ o : Option JSNum,
      jsLt (.fin 0) (hydrateRate.hydrateRateEnv o) = true := by
    intro o
    unfold hydrateRate.hydrateRateEnv
    exact guardPos (o.getD (.fin 150)) (.fin 150) (by decide)
  unfold hydrateRate
  rcases db with _ | n
  · exact henv env
  · exact guardPos n _ (henv env)

/-- Hydration of the minimum deposit always lands at or above zero. -/
theorem hydrateMinDeposit_nonneg (db env : Option JSNum) :
    jsLe (.fin 0) (hydrateMinDeposit db env) = true := by
  have henv : ∀ o : Option JSNum,
      jsLe (.fin 0) (hydrateMinDeposit.hydrateMinDepositEnv o) = true := by
    intro o
    unfold hydrateMinDeposit.hydrateMinDepositEnv
    exact guardNonneg (o.getD (.fin 0)) (.fin 0) (by decide)
  unfold hydrateMinDeposit
  rcases db with _ | n
  · exact henv env
  · exact guardNonneg n _ (henv env)

/-- Hydration of the minimum withdrawal always lands strictly above zero. -/
theorem hydrateMinWithdrawal_pos (db env : Option JSNum) :
    jsLt (.fin 0) (hydrateMinWithdrawal db env) = true := by
  have henv : ∀ o : Option JSNum,
      jsLt (.fin 0) (hydrateMinWithdrawal.hydrateMinWithdrawalEnv o) = true := by
    intro o
    unfold hydrateMinWithdrawal.hydrateMinWithdrawalEnv
    exact guardPos (o.getD (.fin 10)) (.fin 10) (by decide)
  unfold hydrateMinWithdrawal
  rcases db with _ | n
  · exact henv env
  · exact guardPos n _ (henv env)

/-- C9 amended: after hydration and across any sequence of configuration
operations, the rate is positive and the minimum withdrawal positive in
the extended order, and the minimum deposit non-negative — finiteness is
not guaranteed (see the counterexample); every successful update preserves
this, and every rejected update leaves all three values unchanged. -/
theorem C9_amended_thm :
    (∀ db1 env1 db2 env2 db3 env3 : Option JSNum,
      cfgInv { rate := hydrateRate db1 env1,
               minDeposit := hydrateMinDeposit db2 env2,
               minWithdrawal := hydrateMinWithdrawal db3 env3 }) ∧
    (∀ (s : CfgState) (ops : List CfgOp), cfgInv s → cfgInv (ops.foldl cfgStep s)) ∧
    (∀ (s : CfgState) (t : Bool) (n : JSNum), validRate t n = false →
      cfgStep s (.setRate t n) = s) ∧
    (∀ (s : CfgState) (t : Bool) (n : JSNum), validMinDeposit t n = false →
      cfgStep s (.setMinDeposit t n) = s) ∧
    (∀ (s : CfgState) (t : Bool) (n : JSNum), validMinWithdrawal t n = false →
      cfgStep s (.setMinWithdrawal t n) = s) := by
  refine ⟨?_, ?_, ?_, ?_, ?_⟩
  · intro db1 env1 db2 env2 db3 env3
    exact ⟨hydrateRate_pos db1 env1, hydrateMinDeposit_nonneg db2 env2,
           hydrateMinWithdrawal_pos db3 env3⟩
  · intro s ops h
    induction ops generalizing s with
    | nil => exact h
    | cons op rest ih => exact ih _ (cfgStep_preserves s op h)
  · intro s t n hv
    simp [cfgStep, hv]
  · intro s t n hv
    simp [cfgStep, hv]
  · intro s t n hv
    simp [cfgStep, hv]

/-- C9 witness: the amended statement on the default hydration followed by
a successful rate update to 200 and a rejected negative minimum-deposit
update. -/
theorem C9_witness :
    cfgInv { rate := hydrateRate none none,
             minDeposit := hydrateMinDeposit none none,
             minWithdrawal := hydrateMinWithdrawal none none } ∧
    cfgInv (List.foldl cfgStep
      { rate := .fin 150, minDeposit := .fin 0, minWithdrawal := .fin 10 }
      [.setRate true (.fin 200), .getRate]) ∧
    cfgStep { rate := .fin 150, minDeposit := .fin 0, minWithdrawal := .fin 10 }
        (.setMinDeposit true (.fin (-5))) =
      { rate := .fin 150, minDeposit := .fin 0, minWithdrawal := .fin 10 } :=
  ⟨C9_amended_thm.1 none none none none none none,
   C9_amended_thm.2.1 _ _ (by decide),
   C9_amended_thm.2.2.2.1 _ true (.fin (-5)) (by decide)⟩

/-! ## Claim C8: credential gate of the signed request client -/

/-- C8: with either credential absent, every operation through the signed
request client fails with the not-configured error, and the failure is
independent of the network oracle — for every possible send function the
result is the same error, so no network I/O can have been attempted. The
withdrawal wrapper reaches its client call whenever a network is supplied
or the address auto-detects. -/
theorem C8_theorem (c : Creds) (h : c.key = none ∨ c.secret = none) :
    (∀ (ρ α : Type) (send : ρ → Except UpstreamFailure α) (req : ρ),
      binanceGet c send req = .error notConfiguredErr) ∧
    (∀ (ρ α : Type) (send : ρ → Except UpstreamFailure α) (req : ρ),
      binancePost c send req = .error notConfiguredErr) ∧
    (∀ (send : DepositHistoryReq → Except UpstreamFailure DepositHistoryResp)
      (req : DepositHistoryReq),
      getDepositHistory c send req = .error notConfiguredErr) ∧
    (∀ send : Unit → Except UpstreamFailure AccountResp,
      getUSDTBalance c send = .error notConfiguredErr) ∧
    (∀ (send : WithdrawApplyReq → Except UpstreamFailure WithdrawResult)
      (addr : String) (amt : JSNum) (network : Option String),
      (network.isSome ∨ (detectNetwork addr).isSome) →
      withdrawUSDT c send addr amt network = .error notConfiguredErr) := by
  have hmiss : (c.key.isNone || c.secret.isNone) = true := by
    rcases h with h | h <;> simp [h]
  have hget : ∀ (ρ α : Type) (send : ρ → Except UpstreamFailure α) (req : ρ),
      binanceGet c send req = .error notConfiguredErr := by
    intro ρ α send req
    simp [binanceGet, hmiss]
  have hpost : ∀ (ρ α : Type) (send : ρ → Except UpstreamFailure α) (req : ρ),
      binancePost c send req = .error notConfiguredErr := by
    intro ρ α send req
    simp [binancePost, hmiss]
  refine ⟨hget, hpost, ?_, ?_, ?_⟩
  · intro send req
    simp [getDepositHistory, hget]
  · intro send
    simp [getUSDTBalance, hget]
  · intro send addr amt network hdet
    rcases network with _ | n
    · rcases hd : detectNetwork addr with _ | n
      · simp [hd] at hdet
      · simp [withdrawUSDT, hd, hpost]
    · simp [withdrawUSDT, hpost]

/-- C8 witness: the gate at concrete missing-key credentials, concrete
oracles that would succeed if consulted, and a concrete detectable
address. -/
theorem C8_witness :
    binanceGet credsNoKey (sendArr []) histReq = .error notConfiguredErr ∧
    binancePost credsNoKey sendWdOk applyReq = .error notConfiguredErr ∧
    getDepositHistory credsNoKey (sendArr []) histReq = .error notConfiguredErr ∧
    getUSDTBalance credsNoKey (sendAcctWith (.fin 5)) = .error notConfiguredErr ∧
    withdrawUSDT credsNoKey sendWdOk trxAddr (.fin 25) none = .error notConfiguredErr := by
  have h := C8_theorem credsNoKey (Or.inl rfl)
  exact ⟨h.1 _ _ (sendArr []) _, h.2.1 _ _ sendWdOk _, h.2.2.1 (sendArr []) _,
         h.2.2.2.1 (sendAcctWith (.fin 5)),
         h.2.2.2.2 sendWdOk trxAddr (.fin 25) none (Or.inr (by decide))⟩

/-! ## Stepping lemmas for the deposit handler -/

/-- Stepping lemma: a valid, unseen claim with a matched entry and a
passing minimum gate settles, appending the canonical row. -/
theorem depositTxid_settles
    (rows rowsIns : List SettledRow) (rate minDep : JSNum) (nowIso : String)
    (c : Creds) (send : DepositHistoryReq → Except UpstreamFailure DepositHistoryResp)
    (raw : String) (deposits : List DepositEntry) (m : DepositEntry)
    (h1 : (raw == "") = false) (h2 : (jsTrim raw == "") = false)
    (hm1 : getByTxId rows (normalizeTxId (jsTrim raw)) = none)
    (hm2 : getByTxId rows (jsTrim raw) = none)
    (hup : getDepositHistory c send histReq = .ok deposits)
    (hfind : deposits.find? (matchesEntry (normalizeTxId (jsTrim raw)) (jsTrim raw)) = some m)
    (hgate : (jsLt (.fin 0) minDep &&
      jsLt (if m.amountTruthy then m.amountNum else .fin 0) minDep) = false)
    (hfresh : rowsIns.any (fun r => r.txId == normalizeTxId (jsTrim raw)) = false) :
    depositTxid rows rowsIns rate minDep nowIso c send (some raw) =
      (.complete (if m.amountTruthy then m.amountNum else .fin 0)
         (m.insertTimeIso.getD nowIso)
         (jsMul (if m.amountTruthy then m.amountNum else .fin 0) rate),
       some { txId := normalizeTxId (jsTrim raw), asset := "USDT",
              amount := if m.amountTruthy then m.amountNum else .fin 0,
              rewardKes := jsMul (if m.amountTruthy then m.amountNum else .fin 0) rate,
              confirmedAt := m.insertTimeIso.getD nowIso }) := by
  simp only [histReq] at hup
  simp only [depositTxid, h1, h2, hm1, hm2, hup, hfind, hgate, hfresh, Option.orElse,
    Bool.false_eq_true, if_false]

/-- Stepping lemma: a valid, unseen claim with a matched entry whose
amount falls under an active minimum gate is rejected with no write. -/
theorem depositTxid_blocks
    (rows rowsIns : List SettledRow) (rate minDep : JSNum) (nowIso : String)
    (c : Creds) (send : DepositHistoryReq → Except UpstreamFailure DepositHistoryResp)
    (raw : String) (deposits : List DepositEntry) (m : DepositEntry)
    (h1 : (raw == "") = false) (h2 : (jsTrim raw == "") = false)
    (hm1 : getByTxId rows (normalizeTxId (jsTrim raw)) = none)
    (hm2 : getByTxId rows (jsTrim raw) = none)
    (hup : getDepositHistory c send histReq = .ok deposits)
    (hfind : deposits.find? (matchesEntry (normalizeTxId (jsTrim raw)) (jsTrim raw)) = some m)
    (hgate1 : jsLt (.fin 0) minDep = true)
    (hgate2 : jsLt (if m.amountTruthy then m.amountNum else .fin 0) minDep = true) :
    depositTxid rows rowsIns rate minDep nowIso c send (some raw) =
      (.amountTooLow minDep (if m.amountTruthy then m.amountNum else .fin 0), none) := by
  simp only [histReq] at hup
  simp only [depositTxid, h1, h2, hm1, hm2, hup, hfind, hgate1, hgate2, Option.orElse,
    Bool.false_eq_true, if_false, Bool.and_self, if_true]

/-- Stepping lemma: when the canonical identifier is present in the store
snapshot seen by the insert (a concurrent commit between lookup and
insert), the thrown uniqueness violation lands in the generic catch and
the response is the verification error, with no write. -/
theorem depositTxid_race
    (rows rowsIns : List SettledRow) (rate minDep : JSNum) (nowIso : String)
    (c : Creds) (send : DepositHistoryReq → Except UpstreamFailure DepositHistoryResp)
    (raw : String) (deposits : List DepositEntry) (m : DepositEntry)
    (h1 : (raw == "") = false) (h2 : (jsTrim raw == "") = false)
    (hm1 : getByTxId rows (normalizeTxId (jsTrim raw)) = none)
    (hm2 : getByTxId rows (jsTrim raw) = none)
    (hup : getDepositHistory c send histReq = .ok deposits)
    (hfind : deposits.find? (matchesEntry (normalizeTxId (jsTrim raw)) (jsTrim raw)) = some m)
    (hgate : (jsLt (.fin 0) minDep &&
      jsLt (if m.amountTruthy then m.amountNum else .fin 0) minDep) = false)
    (hdup : rowsIns.any (fun r => r.txId == normalizeTxId (jsTrim raw)) = true) :
    depositTxid rows rowsIns rate minDep nowIso c send (some raw) =
      (.verificationError "Failed to verify transaction with Binance", none) := by
  simp only [histReq] at hup
  simp only [depositTxid, depositCatch, h1, h2, hm1, hm2, hup, hfind, hgate, hdup,
    Option.orElse, Bool.false_eq_true, if_false, if_true]
  decide

/-! ## Claim C1: concurrent duplicate insert -/

/-- C1 counterexample: the lookup sees an empty store, the matched
confirmed deposit passes the (disabled) minimum gate, and by insert time
a concurrent submission has stored the canonical identifier; the handler
answers with the verification-error response — not the AlreadySettled
(already_used) outcome the claim requires, and so the claim is false. -/
theorem C1_cex :
    depositTxid [] [exampleRow] (.fin 150) (.fin 0) "now" credsFull
      (sendArr [exampleEntry]) (some "344178838453") =
      (.verificationError "Failed to verify transaction with Binance", none) := by
  rfl

/-- C1 amended: when the lookup finds no row but the insert hits the
uniqueness violation, the engine returns the structured generic
verification_error response (reason verification_error, message "Failed
to verify transaction with Binance") with no store write — a caught,
structured failure rather than a raw storage error, but not the
AlreadySettled outcome and without re-reading the winning row. -/
theorem C1_amended_thm
    (rows rowsIns : List SettledRow) (rate minDep : JSNum) (nowIso : String)
    (c : Creds) (send : DepositHistoryReq → Except UpstreamFailure DepositHistoryResp)
    (raw : String) (deposits : List DepositEntry) (m : DepositEntry)
    (h1 : (raw == "") = false) (h2 : (jsTrim raw == "") = false)
    (hm1 : getByTxId rows (normalizeTxId (jsTrim raw)) = none)
    (hm2 : getByTxId rows (jsTrim raw) = none)
    (hup : getDepositHistory c send histReq = .ok deposits)
    (hfind : deposits.find? (matchesEntry (normalizeTxId (jsTrim raw)) (jsTrim raw)) = some m)
    (hgate : (jsLt (.fin 0) minDep &&
      jsLt (if m.amountTruthy then m.amountNum else .fin 0) minDep) = false)
    (hdup : rowsIns.any (fun r => r.txId == normalizeTxId (jsTrim raw)) = true) :
    depositTxid rows rowsIns rate minDep nowIso c send (some raw) =
      (.verificationError "Failed to verify transaction with Binance", none) :=
  depositTxid_race rows rowsIns rate minDep nowIso c send raw deposits m
    h1 h2 hm1 hm2 hup hfind hgate hdup

/-- C1 witness: the amended statement at the concrete race of the
counterexample. -/
theorem C1_witness :
    depositTxid [] [exampleRow] (.fin 150) (.fin 0) "now" credsFull
      (sendArr [exampleEntry]) (some "344178838453") =
      (.verificationError "Failed to verify transaction with Binance", none) :=
  C1_amended_thm [] [exampleRow] (.fin 150) (.fin 0) "now" credsFull
    (sendArr [exampleEntry]) "344178838453" [exampleEntry] exampleEntry
    (by decide) (by decide) rfl rfl rfl (by decide) (by decide) (by decide)

/-! ## Claim C3: minimum-deposit gate and its frame condition -/

/-- C3: for a valid, unseen claim matched to a confirmed deposit, an
active threshold strictly above the confirmed amount produces the
amount_too_low response and writes nothing to the store; a confirmed
amount exactly equal to the threshold settles, appending the canonical
row. -/
theorem C3_theorem
    (rows rowsIns : List SettledRow) (rate minDep : JSNum) (nowIso : String)
    (c : Creds) (send : DepositHistoryReq → Except UpstreamFailure DepositHistoryResp)
    (raw : String) (deposits : List DepositEntry) (m : DepositEntry)
    (h1 : (raw == "") = false) (h2 : (jsTrim raw == "") = false)
    (hm1 : getByTxId rows (normalizeTxId (jsTrim raw)) = none)
    (hm2 : getByTxId rows (jsTrim raw) = none)
    (hup : getDepositHistory c send histReq = .ok deposits)
    (hfind : deposits.find? (matchesEntry (normalizeTxId (jsTrim raw)) (jsTrim raw)) = some m) :
    (jsLt (.fin 0) minDep = true →
      jsLt (if m.amountTruthy then m.amountNum else .fin 0) minDep = true →
      depositTxid rows rowsIns rate minDep nowIso c send (some raw) =
        (.amountTooLow minDep (if m.amountTruthy then m.amountNum else .fin 0), none)) ∧
    ((if m.amountTruthy then m.amountNum else .fin 0) = minDep →
      rowsIns.any (fun r => r.txId == normalizeTxId (jsTrim raw)) = false →
      depositTxid rows rowsIns rate minDep nowIso c send (some raw) =
        (.complete minDep (m.insertTimeIso.getD nowIso) (jsMul minDep rate),
         some { txId := normalizeTxId (jsTrim raw), asset := "USDT", amount := minDep,
                rewardKes := jsMul minDep rate,
                confirmedAt := m.insertTimeIso.getD nowIso })) := by
  constructor
  · intro hg1 hg2
    exact depositTxid_blocks rows rowsIns rate minDep nowIso c send raw deposits m
      h1 h2 hm1 hm2 hup hfind hg1 hg2
  · intro hconf hfresh
    have hgate : (jsLt (.fin 0) minDep &&
        jsLt (if m.amountTruthy then m.amountNum else .fin 0) minDep) = false := by
      rw [hconf, jsLt_irrefl, Bool.and_false]
    have hkey := depositTxid_settles rows rowsIns rate minDep nowIso c send raw deposits m
      h1 h2 hm1 hm2 hup hfind hgate hfresh
    rw [hconf] at hkey
    exact hkey

/-- C3 witness: threshold 10 against the confirmed 9-USDT deposit yields
amount_too_low with no row; threshold 10 against a confirmed 10-USDT
deposit settles. -/
theorem C3_witness :
    depositTxid [] [] (.fin 150) (.fin 10) "now" credsFull
      (sendArr [exampleEntry]) (some "344178838453") =
      (.amountTooLow (.fin 10) (.fin 9), none) ∧
    depositTxid [] [] (.fin 150) (.fin 10) "now" credsFull
      (sendArr [entryTen]) (some "555") =
      (.complete (.fin 10) "2026-01-22T09:00:00.000Z" (.fin 1500),
       some { txId := "Off-chain transfer 555", asset := "USDT", amount := .fin 10,
              rewardKes := .fin 1500, confirmedAt := "2026-01-22T09:00:00.000Z" }) := by
  have hmul : jsMul (.fin 10) (.fin 150) = .fin 1500 := by
    simp [jsMul]
    norm_num
  constructor
  · exact (C3_theorem [] [] (.fin 150) (.fin 10) "now" credsFull
      (sendArr [exampleEntry]) "344178838453" [exampleEntry] exampleEntry
      (by decide) (by decide) rfl rfl rfl (by decide)).1 (by decide) (by decide)
  · rw [← hmul]
    exact (C3_theorem [] [] (.fin 150) (.fin 10) "now" credsFull
      (sendArr [entryTen]) "555" [entryTen] entryTen
      (by decide) (by decide) rfl rfl rfl (by decide)).2 (by decide) (by decide)

/-! ## Claim C4: reward computation -/

/-- C4: on the settle path the reward in the response is exactly the
confirmed amount multiplied (jsMul) by the rate parameter in effect at
verification time; on finite inputs the product is the exact rational
product, and 9 times 150 is exactly 1350. -/
theorem C4_theorem
    (rows rowsIns : List SettledRow) (rate minDep : JSNum) (nowIso : String)
    (c : Creds) (send : DepositHistoryReq → Except UpstreamFailure DepositHistoryResp)
    (raw : String) (deposits : List DepositEntry) (m : DepositEntry)
    (h1 : (raw == "") = false) (h2 : (jsTrim raw == "") = false)
    (hm1 : getByTxId rows (normalizeTxId (jsTrim raw)) = none)
    (hm2 : getByTxId rows (jsTrim raw) = none)
    (hup : getDepositHistory c send histReq = .ok deposits)
    (hfind : deposits.find? (matchesEntry (normalizeTxId (jsTrim raw)) (jsTrim raw)) = some m)
    (hgate : (jsLt (.fin 0) minDep &&
      jsLt (if m.amountTruthy then m.amountNum else .fin 0) minDep) = false)
    (hfresh : rowsIns.any (fun r => r.txId == normalizeTxId (jsTrim raw)) = false) :
    (depositTxid rows rowsIns rate minDep nowIso c send (some raw)).1 =
      .complete (if m.amountTruthy then m.amountNum else .fin 0)
        (m.insertTimeIso.getD nowIso)
        (jsMul (if m.amountTruthy then m.amountNum else .fin 0) rate) ∧
    (∀ a r : ℚ, jsMul (.fin a) (.fin r) = .fin (a * r)) ∧
    jsMul (.fin 9) (.fin 150) = .fin 1350 := by
  refine ⟨?_, fun a r => rfl, ?_⟩
  · rw [depositTxid_settles rows rowsIns rate minDep nowIso c send raw deposits m
      h1 h2 hm1 hm2 hup hfind hgate hfresh]
  · simp [jsMul]
    norm_num

/-- C4 witness: the settle path at rate 150 on the confirmed 9-USDT
deposit carries reward exactly 1350. -/
theorem C4_witness :
    (depositTxid [] [] (.fin 150) (.fin 0) "now" credsFull
      (sendArr [exampleEntry]) (some "344178838453")).1 =
      .complete (.fin 9) "2026-01-22T08:11:24.000Z" (.fin 1350) := by
  have h := C4_theorem [] [] (.fin 150) (.fin 0) "now" credsFull
    (sendArr [exampleEntry]) "344178838453" [exampleEntry] exampleEntry
    (by decide) (by decide) rfl rfl rfl (by decide) (by decide) (by decide)
  rw [← h.2.2]
  exact h.1

/-! ## Claim C10: falsy or zero amount settles at zero -/

/-- C10: a matched confirmed deposit whose amount field is falsy (missing,
empty, zero) or parses to 0, under threshold 0 and a finite rate, settles
with confirmed amount 0 and reward 0, writing the canonical row with
amount 0 and reward 0. -/
theorem C10_theorem
    (rows rowsIns : List SettledRow) (rate : JSNum) (nowIso : String)
    (c : Creds) (send : DepositHistoryReq → Except UpstreamFailure DepositHistoryResp)
    (raw : String) (deposits : List DepositEntry) (m : DepositEntry) (r : ℚ)
    (h1 : (raw == "") = false) (h2 : (jsTrim raw == "") = false)
    (hm1 : getByTxId rows (normalizeTxId (jsTrim raw)) = none)
    (hm2 : getByTxId rows (jsTrim raw) = none)
    (hup : getDepositHistory c send histReq = .ok deposits)
    (hfind : deposits.find? (matchesEntry (normalizeTxId (jsTrim raw)) (jsTrim raw)) = some m)
    (hamt : m.amountTruthy = false ∨ m.amountNum = .fin 0)
    (hrate : rate = .fin r)
    (hfresh : rowsIns.any (fun row => row.txId == normalizeTxId (jsTrim raw)) = false) :
    depositTxid rows rowsIns rate (.fin 0) nowIso c send (some raw) =
      (.complete (.fin 0) (m.insertTimeIso.getD nowIso) (.fin 0),
       some { txId := normalizeTxId (jsTrim raw), asset := "USDT", amount := .fin 0,
              rewardKes := .fin 0, confirmedAt := m.insertTimeIso.getD nowIso }) := by
  have hconf : (if m.amountTruthy then m.amountNum else .fin 0) = .fin 0 := by
    rcases hamt with h | h <;> simp [h]
  have hgate : (jsLt (.fin 0) (.fin 0) &&
      jsLt (if m.amountTruthy then m.amountNum else .fin 0) (.fin 0)) = false := by
    simp [jsLt]
  have hkey := depositTxid_settles rows rowsIns rate (.fin 0) nowIso c send raw deposits m
    h1 h2 hm1 hm2 hup hfind hgate hfresh
  rw [hconf, hrate] at hkey
  have hmul : jsMul (.fin 0) (.fin r) = .fin 0 := by
    simp [jsMul]
  rw [hmul] at hkey
  rw [hrate]
  exact hkey

/-- C10 witness: the falsy-amount fixture settles under threshold 0 with
amount 0 and reward 0. -/
theorem C10_witness :
    depositTxid [] [] (.fin 150) (.fin 0) "2026-02-03T00:00:00.000Z" credsFull
      (sendArr [zeroAmountEntry]) (some "777") =
      (.complete (.fin 0) "2026-02-03T00:00:00.000Z" (.fin 0),
       some { txId := "Off-chain transfer 777", asset := "USDT", amount := .fin 0,
              rewardKes := .fin 0, confirmedAt := "2026-02-03T00:00:00.000Z" }) :=
  C10_theorem [] [] (.fin 150) "2026-02-03T00:00:00.000Z" credsFull
    (sendArr [zeroAmountEntry]) "777" [zeroAmountEntry] zeroAmountEntry 150
    (by decide) (by decide) rfl rfl rfl (by decide) (Or.inl rfl) rfl (by decide)

/-! ## Claim C2: canonicalization and dual-form matching -/

/-- C2: the handler trims surrounding whitespace and rejects blank input
with the 400 response; both the bare and the tagged example forms share
the canonical identifier "Off-chain transfer 344178838453"; every
canonical identifier (hence every stored key, since the insert stores the
canonical form) begins with the tag, and over any such store the dual-key
duplicate lookup of the two forms agrees; an upstream record carrying the
canonical identifier (raw or up to trimming) is matched by both
submissions; and once a row is stored under the canonical key, both
submissions return already_used with the stored amount, reward and
timestamp. -/
theorem C2_theorem :
    (normalizeTxId "344178838453" = "Off-chain transfer 344178838453" ∧
     normalizeTxId "Off-chain transfer 344178838453" =
       "Off-chain transfer 344178838453") ∧
    (∀ (raw : String) (rows rowsIns : List SettledRow) (rate minDep : JSNum)
      (nowIso : String) (c : Creds)
      (send : DepositHistoryReq → Except UpstreamFailure DepositHistoryResp),
      jsTrim raw = "" →
      depositTxid rows rowsIns rate minDep nowIso c send (some raw) =
        (.badRequest "txId is required", none)) ∧
    (∀ t : String, jsStartsWith (normalizeTxId t) offChainTag = true) ∧
    (∀ rows : List SettledRow,
      (∀ r ∈ rows, jsStartsWith r.txId offChainTag = true) →
      ((getByTxId rows (normalizeTxId "344178838453")).orElse
        (fun _ => getByTxId rows "344178838453")) =
      ((getByTxId rows (normalizeTxId "Off-chain transfer 344178838453")).orElse
        (fun _ => getByTxId rows "Off-chain transfer 344178838453"))) ∧
    (∀ d : DepositEntry, d.present = true → jsEq d.status (.fin 1) = true →
      (d.txId = some "Off-chain transfer 344178838453" ∨
        (∃ t, d.txId = some t ∧ jsTrim t = "Off-chain transfer 344178838453")) →
      matchesEntry (normalizeTxId "344178838453") "344178838453" d = true ∧
      matchesEntry (normalizeTxId "Off-chain transfer 344178838453")
        "Off-chain transfer 344178838453" d = true) ∧
    (∀ (row : SettledRow) (rows rowsIns : List SettledRow) (rate minDep : JSNum)
      (nowIso : String) (c : Creds)
      (send : DepositHistoryReq → Except UpstreamFailure DepositHistoryResp),
      getByTxId rows "Off-chain transfer 344178838453" = some row →
      depositTxid rows rowsIns rate minDep nowIso c send (some "344178838453") =
        (.alreadyUsed row.amount row.rewardKes row.confirmedAt, none) ∧
      depositTxid rows rowsIns rate minDep nowIso c send
          (some "Off-chain transfer 344178838453") =
        (.alreadyUsed row.amount row.rewardKes row.confirmedAt, none)) := by
  have e0 : jsTrim "344178838453" = "344178838453" := by decide
  have e0b : jsTrim "Off-chain transfer 344178838453" =
      "Off-chain transfer 344178838453" := by decide
  have e1 : normalizeTxId "344178838453" = "Off-chain transfer 344178838453" := by
    decide
  have e2 : normalizeTxId "Off-chain transfer 344178838453" =
      "Off-chain transfer 344178838453" := by decide
  have eb1 : ("344178838453" == "") = false := by decide
  have eb2 : ("Off-chain transfer 344178838453" == "") = false := by decide
  refine ⟨⟨e1, e2⟩, ?_, ?_, ?_, ?_, ?_⟩
  · intro raw rows rowsIns rate minDep nowIso c send h
    cases hraw : (raw == "") with
    | true => simp [depositTxid, hraw]
    | false => simp [depositTxid, hraw, h]
  · intro t
    unfold normalizeTxId
    by_cases h : jsStartsWith t offChainTag = true
    · rw [if_pos h]
      exact h
    · rw [if_neg h]
      unfold jsStartsWith
      simp only [String.toList, String.data_append]
      exact startsWithList_append _ _
  · intro rows htag
    have hA : getByTxId rows "344178838453" = none := by
      rw [getByTxId, List.find?_eq_none]
      intro r hr hbeq
      have ht := htag r hr
      rw [beq_iff_eq] at hbeq
      rw [hbeq] at ht
      exact absurd ht (by decide)
    rw [e1, e2, hA]
    cases h : getByTxId rows "Off-chain transfer 344178838453" <;>
      simp [Option.orElse]
  · intro d hp hs ht
    rw [e1, e2]
    unfold matchesEntry
    rcases ht with h | ⟨t, h, htr⟩
    · rw [h]
      simp [hp, hs]
    · rw [h]
      simp [hp, hs, htr]
  · intro row rows rowsIns rate minDep nowIso c send hrow
    constructor
    · simp only [depositTxid, eb1, e0, e1, hrow, Option.orElse,
        Bool.false_eq_true, if_false]
    · simp only [depositTxid, eb2, e0b, e2, hrow, Option.orElse,
        Bool.false_eq_true, if_false]

/-- C2 witness: blank input is rejected; the dual lookup of the two forms
agrees over a store holding the canonical example row; the canonical
upstream record is matched by the bare submission; and resubmitting the
bare form after the canonical row settled returns already_used with the
stored 9 and 1350. -/
theorem C2_witness :
    depositTxid [] [] (.fin 150) (.fin 0) "now" credsFull (sendArr [])
      (some "   ") = (.badRequest "txId is required", none) ∧
    jsStartsWith (normalizeTxId "abc") offChainTag = true ∧
    ((getByTxId [exampleRow] (normalizeTxId "344178838453")).orElse
      (fun _ => getByTxId [exampleRow] "344178838453")) =
    ((getByTxId [exampleRow] (normalizeTxId "Off-chain transfer 344178838453")).orElse
      (fun _ => getByTxId [exampleRow] "Off-chain transfer 344178838453")) ∧
    matchesEntry (normalizeTxId "344178838453") "344178838453" exampleEntry = true ∧
    depositTxid [exampleRow] [] (.fin 150) (.fin 0) "now" credsFull (sendArr [])
      (some "344178838453") =
      (.alreadyUsed (.fin 9) (.fin 1350) "2026-01-22T08:11:24.000Z", none) :=
  ⟨C2_theorem.2.1 "   " [] [] (.fin 150) (.fin 0) "now" credsFull (sendArr [])
      (by decide),
   C2_theorem.2.2.1 "abc",
   C2_theorem.2.2.2.1 [exampleRow] (by decide),
   (C2_theorem.2.2.2.2.1 exampleEntry (by decide) (by decide)
      (Or.inl (by decide))).1,
   (C2_theorem.2.2.2.2.2 exampleRow [exampleRow] [] (.fin 150) (.fin 0) "now"
      credsFull (sendArr []) (by decide)).1⟩

/-! ## Claim C6: withdrawal gate ordering -/

/-- C6: for a withdrawal request that passes input validation (non-blank
address, resolvable network, valid optional amount), with the balance
query answering av: a zero-or-negative av short-circuits to the
insufficient-funds response that reports available 0; otherwise the
resolved amount (the supplied amount, or av itself when none is supplied)
is gated first against the minimum-withdrawal threshold, yielding
amount_below_minimum when strictly below it, and only then against the
balance, yielding insufficient_funds carrying both the requested and the
available amounts when it exceeds av; in particular threshold 10,
available 5, no amount yields amount_below_minimum. -/
theorem C6_theorem (minW : JSNum) (c : Creds)
    (sendAcct : Unit → Except UpstreamFailure AccountResp)
    (sendWd : WithdrawApplyReq → Except UpstreamFailure WithdrawResult)
    (a : String) (amountRaw : Option JSNum) (network : Option String) (net : String)
    (av : JSNum)
    (ha1 : (a == "") = false) (ha2 : (jsTrim a == "") = false)
    (hnet : network = some net ∨ (network = none ∧ detectNetwork (jsTrim a) = some net))
    (hnetv : network.any (fun n => n != "TRX" && n != "SOL") = false)
    (hamt : amountRaw.any (fun n => n.isNaN || jsLe n (.fin 0)) = false)
    (hbal : getUSDTBalance c sendAcct = .ok av) :
    (jsLe av (.fin 0) = true →
      withdrawHandler minW c sendAcct sendWd (some a) amountRaw network =
        .insufficientNoBalance) ∧
    (jsLe av (.fin 0) = false → jsLt (amountRaw.getD av) minW = true →
      withdrawHandler minW c sendAcct sendWd (some a) amountRaw network =
        .belowMinimum (amountRaw.getD av) minW) ∧
    (jsLe av (.fin 0) = false → jsLt (amountRaw.getD av) minW = false →
      jsLt av (amountRaw.getD av) = true →
      withdrawHandler minW c sendAcct sendWd (some a) amountRaw network =
        .insufficientFunds (amountRaw.getD av) av) ∧
    (minW = .fin 10 → av = .fin 5 → amountRaw = none →
      withdrawHandler minW c sendAcct sendWd (some a) amountRaw network =
        .belowMinimum (.fin 5) (.fin 10)) := by
  have key : withdrawHandler minW c sendAcct sendWd (some a) amountRaw network =
      (if jsLe av (.fin 0) then WithdrawResponse.insufficientNoBalance
       else if jsLt (amountRaw.getD av) minW then
         .belowMinimum (amountRaw.getD av) minW
       else if jsLt av (amountRaw.getD av) then
         .insufficientFunds (amountRaw.getD av) av
       else match withdrawUSDT c sendWd (jsTrim a) (amountRaw.getD av) (some net) with
            | .ok r => .complete r.id (amountRaw.getD av) (jsTrim a) net
            | .error e => withdrawCatch e) := by
    rcases hnet with hs | ⟨hn, hd⟩
    · subst hs
      simp only [withdrawHandler, ha1, ha2, hnetv, hamt, hbal,
        Bool.false_eq_true, if_false]
    · subst hn
      simp only [withdrawHandler, ha1, ha2, hd, hnetv, hamt, hbal,
        Bool.false_eq_true, if_false]
  refine ⟨fun hz => ?_, fun hz hlt => ?_, fun hz hlt hex => ?_, fun hw hv hno => ?_⟩
  · rw [key]
    simp only [hz, if_true]
  · rw [key]
    simp only [hz, hlt, Bool.false_eq_true, if_false, if_true]
  · rw [key]
    simp only [hz, hlt, hex, Bool.false_eq_true, if_false, if_true]
  · subst hw
    subst hv
    subst hno
    rw [key]
    norm_num [jsLe, jsLt]

/-- C6 witness: threshold 10, available balance 5, no amount supplied, on
a first-family address — the result is the below-minimum response with
requested 5 and threshold 10. -/
theorem C6_witness :
    withdrawHandler (.fin 10) credsFull (sendAcctWith (.fin 5)) sendWdOk
      (some trxAddr) none none = .belowMinimum (.fin 5) (.fin 10) :=
  (C6_theorem (.fin 10) credsFull (sendAcctWith (.fin 5)) sendWdOk trxAddr
    none none "TRX" (.fin 5) (by decide) (by decide)
    (Or.inr ⟨rfl, by decide⟩) rfl rfl rfl).2.2.2 rfl rfl rfl
